import Mathlib

/-!
Verification of the copilot-gemini-bridge MCP server.

This development is a shallow embedding, in Lean 4, of the request-handling
core of the bridge (dist/index.js): the permission-mediation policy installed
as the session's permission callback, reasoning-effort parsing, the singleton
runtime-client acquisition with its single-flight initialization lock, the
bridge orchestrator (result extraction, tools-used footer, guaranteed session
destruction), and the inbound tool-call handler's validation.

JavaScript idioms are embedded explicitly:
  - an absent (`undefined`) value is `Option.none`;
  - string falsiness (`!s` is true for the empty string) is modelled by
    testing against `""`;
  - a `finally` block whose own failure would replace the outcome is
    `finallyCombine`, and the inner `try/catch` that swallows cleanup errors
    is `swallowCleanupError`.
-/

/-! ## Permission policy (dist/index.js, `onPermissionRequest`, lines 184-201) -/

/-- Result of the session's permission callback: `approved` or a structured
denial carrying rule descriptions. -/
inductive PermissionResult where
  | approved
  | deniedByRules (rules : List String)
deriving Repr, DecidableEq

/-- Permission kinds that are always allowed, even in read-only mode
(dist/index.js line 80). -/
def READ_ONLY_ALLOWED_KINDS : List String := ["mcp", "read", "url"]

/-- The structured denial reason used when write access is disabled
(dist/index.js line 199). -/
def writeDisabledRule : String :=
  "Write access is disabled - only read operations permitted"

/-- The session's permission callback (dist/index.js lines 184-201): kinds in
`READ_ONLY_ALLOWED_KINDS` are approved; otherwise any kind is approved when
write access is enabled; otherwise the request is denied with the structured
write-disabled rule. -/
def onPermissionRequest (writeAccess : Bool) (kind : String) : PermissionResult :=
  if kind ∈ READ_ONLY_ALLOWED_KINDS then
    PermissionResult.approved
  else if writeAccess then
    PermissionResult.approved
  else
    PermissionResult.deniedByRules [writeDisabledRule]

/-! ## Reasoning-effort parsing (dist/index.js, `parseReasoningEffort`,
lines 29-41) -/

/-- The closed set of reasoning-effort values accepted by the bridge
(dist/index.js lines 29-34). -/
def VALID_REASONING_EFFORTS : List String := ["low", "medium", "high", "xhigh"]

/-- `parseReasoningEffort` (dist/index.js lines 35-40): a truthy value that is
in `VALID_REASONING_EFFORTS` is returned unchanged; anything else (absent,
empty, or invalid) yields the hard-coded `"high"`. -/
def parseReasoningEffort (value : Option String) : String :=
  match value with
  | some v => if v ≠ "" ∧ v ∈ VALID_REASONING_EFFORTS then v else "high"
  | none => "high"

/-- `runBridge` defaults an absent `reasoningEffort` option to
`DEFAULT_REASONING_EFFORT = parseReasoningEffort(process.env.COPILOT_REASONING_EFFORT)`
(dist/index.js lines 41 and 155). -/
def runBridgeEffort (envEffort : Option String) (passed : Option String) : String :=
  passed.getD (parseReasoningEffort envEffort)

/-- The effort actually configured on the session for an inbound tool call:
the handler (dist/index.js line 335) computes `parseReasoningEffort` of the
request's value and always passes the result to `runBridge`, so `runBridge`'s
own env-based default is never consulted on this path. -/
def handlerSessionEffort (envEffort : Option String) (requested : Option String) : String :=
  runBridgeEffort envEffort (some (parseReasoningEffort requested))

/-- Modelled from the README table (Available Models / Copilot orchestrator):
the reasoning-effort levels each Copilot model supports. The bridge code never
queries or consults this table; it is embedded only to state claims about the
documented per-model clamping behaviour. -/
def supportedEfforts (model : String) : List String :=
  if model = "gpt-5.2-codex" ∨ model = "gpt-5.1-codex-max" then
    ["low", "medium", "high", "xhigh"]
  else if model = "gpt-5.2" ∨ model = "gpt-5.1" ∨ model = "gpt-5.1-codex" ∨
      model = "gpt-5.1-codex-mini" ∨ model = "gpt-5" ∨ model = "gpt-5-mini" then
    ["low", "medium", "high"]
  else
    []

/-! ## Claims about the permission policy -/

/-- Claim C1: the permission callback implements exactly the policy table:
kinds mcp, read, url are approved for every value of the write-access flag;
kinds shell and write are approved iff write access is enabled, and otherwise
denied with the structured write-disabled reason. -/
theorem claim1_permission_policy_table :
    ∀ writeAccess : Bool,
      onPermissionRequest writeAccess "mcp" = PermissionResult.approved ∧
      onPermissionRequest writeAccess "read" = PermissionResult.approved ∧
      onPermissionRequest writeAccess "url" = PermissionResult.approved ∧
      (onPermissionRequest writeAccess "shell" = PermissionResult.approved ↔
        writeAccess = true) ∧
      (onPermissionRequest writeAccess "write" = PermissionResult.approved ↔
        writeAccess = true) ∧
      onPermissionRequest false "shell" = PermissionResult.deniedByRules [writeDisabledRule] ∧
      onPermissionRequest false "write" = PermissionResult.deniedByRules [writeDisabledRule] := by
  intro writeAccess
  cases writeAccess <;> decide

/-- Claim C2 counterexample: the kind "container-exec" is outside the
recognized set, yet with write access enabled the callback approves it, so the
callback does not fail closed for every value of the write-access flag. -/
theorem claim2_counterexample :
    onPermissionRequest true "container-exec" = PermissionResult.approved ∧
    ¬ "container-exec" ∈ ["mcp", "read", "url", "shell", "write"] := by
  decide

/-- Claim C2 as amended: for every permission-request kind outside the
recognized set, the callback denies (with the structured write-disabled
reason) when write access is disabled, but approves when write access is
enabled; it fails closed only in read-only mode. -/
theorem claim2_unrecognized_kind_policy (kind : String)
    (hk : ¬ kind ∈ ["mcp", "read", "url", "shell", "write"]) :
    onPermissionRequest false kind = PermissionResult.deniedByRules [writeDisabledRule] ∧
    onPermissionRequest true kind = PermissionResult.approved := by
  have h1 : ¬ kind ∈ READ_ONLY_ALLOWED_KINDS := by
    intro h
    apply hk
    simp only [READ_ONLY_ALLOWED_KINDS, List.mem_cons, List.not_mem_nil, or_false] at h
    simp only [List.mem_cons, List.not_mem_nil, or_false]
    tauto
  constructor <;> simp [onPermissionRequest, h1]

/-- Witness for claim C2's amended theorem at the concrete kind
"container-exec". -/
theorem claim2_unrecognized_kind_policy_witness :
    onPermissionRequest false "container-exec" =
      PermissionResult.deniedByRules [writeDisabledRule] ∧
    onPermissionRequest true "container-exec" = PermissionResult.approved :=
  claim2_unrecognized_kind_policy "container-exec" (by decide)

/-! ## Result extraction and the tools-used footer (dist/index.js,
`runBridge`, lines 210-235) -/

/-- One entry of the session's message history, as consumed by `runBridge`:
its `type` tag and the `data.content` text. An absent `data.content` is
modelled as `""`, which JavaScript treats identically under `||`. -/
structure Message where
  type : String
  content : String
deriving Repr, DecidableEq

/-- The trailing tools-used footer (dist/index.js line 233): when at least one
tool execution label was recorded, the labels joined with ", ", in recorded order,
wrapped in the fixed frame; empty otherwise. -/
def toolsUsedFooter (events : List String) : String :=
  if events.length > 0 then
    "\n\n[Tools used: " ++ String.intercalate ", " events ++ "]"
  else
    ""

/-- The fallback result (dist/index.js lines 224-231): the session history is
filtered to assistant messages, the last one's content is used when it is
non-empty, and otherwise the fixed placeholder is returned. -/
def fallbackResult (messages : List Message) : String :=
  match (messages.filter (fun m => m.type == "assistant.message")).getLast? with
  | some lastMsg =>
      if lastMsg.content = "" then "No response generated." else lastMsg.content
  | none => "No response generated."

/-- Result extraction (dist/index.js lines 222-235): a truthy primary content
is returned with the tools-used footer appended; an absent or empty content
takes the fallback path, which never appends the footer. -/
def extractResult (content : Option String) (events : List String)
    (messages : List Message) : String :=
  match content with
  | some c => if c = "" then fallbackResult messages else c ++ toolsUsedFooter events
  | none => fallbackResult messages

/-- First-seen-order deduplication as described by the specification's
tools-used sentence; stated only to compare against the code's footer. -/
def dedupFirstSeen (xs : List String) : List String :=
  xs.foldl (fun acc x => if x ∈ acc then acc else acc ++ [x]) []

/-! ## Claims about result extraction -/

/-- Claim C3 counterexample: with tool invocations fetch, fetch, search the
footer appended to a primary content "ok" lists "fetch, fetch, search", not
the deduplicated "fetch, search" listing that the claim requires. -/
theorem claim3_counterexample :
    extractResult (some "ok") ["fetch", "fetch", "search"] [] =
      "ok\n\n[Tools used: fetch, fetch, search]" ∧
    dedupFirstSeen ["fetch", "fetch", "search"] = ["fetch", "search"] ∧
    ¬ extractResult (some "ok") ["fetch", "fetch", "search"] [] =
        "ok" ++ toolsUsedFooter (dedupFirstSeen ["fetch", "fetch", "search"]) := by
  refine ⟨rfl, rfl, ?_⟩
  decide

/-- Claim C3 as amended: when at least one tool execution was recorded and the
primary content is non-empty, the trailing footer lists every recorded tool
label, duplicates included, in invocation order, joined with ", ". -/
theorem claim3_footer_lists_all_events (c : String) (events : List String)
    (messages : List Message) (hc : c ≠ "") (he : events ≠ []) :
    extractResult (some c) events messages =
      c ++ "\n\n[Tools used: " ++ String.intercalate ", " events ++ "]" := by
  have hlen : events.length > 0 := List.length_pos.mpr he
  simp [extractResult, toolsUsedFooter, hc, hlen, String.append_assoc]

/-- Witness for claim C3's amended theorem at a concrete duplicated event
log. -/
theorem claim3_footer_lists_all_events_witness :
    extractResult (some "ok") ["fetch", "fetch", "search"] [] =
      "ok" ++ "\n\n[Tools used: " ++
        String.intercalate ", " ["fetch", "fetch", "search"] ++ "]" :=
  claim3_footer_lists_all_events "ok" ["fetch", "fetch", "search"] []
    (by decide) (by decide)

/-- Claim C7: result extraction follows the chain: a non-empty primary content
is used (with the footer appended); otherwise the most recent
assistant-authored message's non-empty content is used; and when no assistant
message exists the fixed placeholder "No response generated." is returned. -/
theorem claim7_result_extraction_chain (c : String) (events : List String)
    (messages : List Message) (m : Message) :
    (c ≠ "" → extractResult (some c) events messages = c ++ toolsUsedFooter events) ∧
    ((messages.filter (fun x => x.type == "assistant.message")).getLast? = some m →
      m.content ≠ "" → extractResult none events messages = m.content) ∧
    ((messages.filter (fun x => x.type == "assistant.message")).getLast? = none →
      extractResult none events messages = "No response generated.") := by
  refine ⟨fun hc => ?_, fun hm hmc => ?_, fun hnone => ?_⟩
  · simp [extractResult, hc]
  · simp [extractResult, fallbackResult, hm, hmc]
  · simp [extractResult, fallbackResult, hnone]

/-- Witness for claim C7's chain: a primary content with one tool event, the
single-assistant-message "done" scenario, and the empty-history placeholder
scenario. -/
theorem claim7_result_extraction_chain_witness :
    extractResult (some "hi") ["gemini:ask-gemini"] [] =
      "hi" ++ toolsUsedFooter ["gemini:ask-gemini"] ∧
    extractResult none [] [Message.mk "assistant.message" "done"] = "done" ∧
    extractResult none [] [] = "No response generated." := by
  refine ⟨?_, ?_, ?_⟩
  · exact (claim7_result_extraction_chain "hi" ["gemini:ask-gemini"] []
      (Message.mk "assistant.message" "done")).1 (by decide)
  · exact (claim7_result_extraction_chain "" [] [Message.mk "assistant.message" "done"]
      (Message.mk "assistant.message" "done")).2.1 (by decide) (by decide)
  · exact (claim7_result_extraction_chain "" [] []
      (Message.mk "assistant.message" "done")).2.2 (by decide)

/-- Claim C10: whenever the primary content is absent (or empty, which
JavaScript treats as absent), the returned text is exactly the fallback
result, a function of the message history alone: the tools-used footer is
never appended on the fallback path, whatever tool events were recorded. -/
theorem claim10_fallback_has_no_footer :
    ∀ (events : List String) (messages : List Message),
      extractResult none events messages = fallbackResult messages ∧
      extractResult (some "") events messages = fallbackResult messages := by
  intro events messages
  exact ⟨rfl, by simp [extractResult]⟩

/-! ## Bridge orchestrator lifecycle (dist/index.js, `runBridge`,
lines 154-253) -/

/-- The observable behaviour of one bridge run's collaborators: whether
session creation succeeds, what `sendAndWait` produces (a thrown error -
including a timeout - or a response whose `data.content` may be absent), the
recorded tool-execution labels, the session's message history, and whether
`session.destroy()` itself fails. -/
structure SessionRun where
  createSession : Except String Unit
  sendResult : Except String (Option String)
  events : List String
  messages : List Message
  destroyResult : Except String Unit

/-- The outcome of one bridge run: the returned text or the thrown wrapped
error, together with how many times `session.destroy()` was invoked. -/
structure BridgeRun where
  outcome : Except String String
  destroyCount : Nat

/-- The catch block's wrapping of any failure thrown inside the try
(dist/index.js lines 237-241). -/
def wrapBridgeError (e : String) : String := "Copilot-Gemini bridge failed: " ++ e

/-- The inner `try { await session.destroy() } catch { }` of the finally block
(dist/index.js lines 245-250): whatever destruction produced, nothing
escapes. -/
def swallowCleanupError : Except String Unit → Except String Unit :=
  fun _ => Except.ok ()

/-- JavaScript `finally` semantics: a cleanup block that itself throws
replaces the pending outcome; a cleanup that completes normally leaves the
pending outcome intact. -/
def finallyCombine (body : Except String String) (cleanup : Except String Unit) :
    Except String String :=
  match cleanup with
  | Except.error e => Except.error e
  | Except.ok _ => body

/-- `runBridge` from session creation onward (dist/index.js lines 170-252):
if `createSession` throws, the catch wraps the error and the finally block
finds no session, so destroy is never called; otherwise the body either
returns the extracted result or throws the wrapped send failure, and the
finally block destroys the session exactly once, with destruction errors
swallowed before they could replace the outcome. -/
def runBridge (r : SessionRun) : BridgeRun :=
  match r.createSession with
  | Except.error e =>
      { outcome := finallyCombine (Except.error (wrapBridgeError e)) (Except.ok ()),
        destroyCount := 0 }
  | Except.ok _ =>
      let body : Except String String :=
        match r.sendResult with
        | Except.error e => Except.error (wrapBridgeError e)
        | Except.ok content => Except.ok (extractResult content r.events r.messages)
      { outcome := finallyCombine body (swallowCleanupError r.destroyResult),
        destroyCount := 1 }

/-! ## Claims about the orchestrator lifecycle -/

/-- Claim C4: once a session has been created successfully, every exit path of
the bridge run - normal return, thrown send failure, timeout - invokes the
session's destroy exactly once, and the run's outcome is the same whatever
destroy itself produces: a destroy failure is swallowed and never masks the
original outcome. -/
theorem claim4_destroy_exactly_once (r : SessionRun)
    (h : r.createSession = Except.ok ()) :
    (runBridge r).destroyCount = 1 ∧
    (∀ d d' : Except String Unit,
      (runBridge { r with destroyResult := d }).outcome =
        (runBridge { r with destroyResult := d' }).outcome) := by
  constructor
  · simp [runBridge, h]
  · intro d d'
    simp [runBridge, h, finallyCombine, swallowCleanupError]

/-- Witness for claim C4 at a concrete run whose destroy fails: the session is
destroyed once and the failing destroy leaves the outcome identical to a
successful destroy. -/
theorem claim4_destroy_exactly_once_witness :
    (runBridge (SessionRun.mk (Except.ok ()) (Except.ok (some "hi")) ["fetch"] []
        (Except.error "cleanup failed"))).destroyCount = 1 ∧
    (runBridge (SessionRun.mk (Except.ok ()) (Except.ok (some "hi")) ["fetch"] []
        (Except.error "cleanup failed"))).outcome =
      (runBridge (SessionRun.mk (Except.ok ()) (Except.ok (some "hi")) ["fetch"] []
        (Except.ok ()))).outcome := by
  have h := claim4_destroy_exactly_once
    (SessionRun.mk (Except.ok ()) (Except.ok (some "hi")) ["fetch"] []
      (Except.error "cleanup failed")) rfl
  exact ⟨h.1, h.2 (Except.error "cleanup failed") (Except.ok ())⟩

/-! ## Claims about reasoning-effort handling -/

/-- Claim C6 (code-bug evaluation): at the failing input model "gpt-5.2" with
requested effort "xhigh", the handler passes "xhigh" through to session
creation unchanged - `parseReasoningEffort` consults only the global valid set
and takes no model argument - although "xhigh" is outside the levels the
README documents for gpt-5.2, so no per-model clamping happens. -/
theorem claim6_no_model_clamping :
    handlerSessionEffort (some "high") (some "xhigh") = "xhigh" ∧
    ¬ "xhigh" ∈ supportedEfforts "gpt-5.2" ∧
    supportedEfforts "gpt-5.2" = ["low", "medium", "high"] ∧
    parseReasoningEffort (some "xhigh") = "xhigh" := by
  refine ⟨rfl, ?_, ?_, rfl⟩ <;> decide

/-- Claim C8 (code-bug evaluation): with the configured default
COPILOT_REASONING_EFFORT = "low" (valid, so the configured default is "low"),
a request with a missing or invalid reasoning-effort value runs the session
with the hard-coded "high", not the configured default. -/
theorem claim8_fallback_ignores_configured_default :
    parseReasoningEffort (some "low") = "low" ∧
    handlerSessionEffort (some "low") none = "high" ∧
    handlerSessionEffort (some "low") (some "bogus") = "high" ∧
    ¬ "high" = "low" := by
  refine ⟨rfl, rfl, ?_, ?_⟩ <;> decide

/-! ## Inbound tool-call handler (dist/index.js, CallToolRequestSchema
handler, lines 320-364) -/

/-- A JavaScript value as far as the handler's checks observe it. -/
inductive JSValue where
  | strVal (s : String)
  | numVal (n : Int)
  | boolVal (b : Bool)
  | nullVal
deriving Repr, DecidableEq

/-- JavaScript truthiness for the values the handler can receive. -/
def jsTruthy : JSValue → Bool
  | JSValue.strVal s => s != ""
  | JSValue.numVal n => n != 0
  | JSValue.boolVal b => b
  | JSValue.nullVal => false

/-- `typeof v === "string"`. -/
def jsIsString : JSValue → Bool
  | JSValue.strVal _ => true
  | _ => false

/-- What the handler returned and how many times it invoked `runBridge`.
Acquiring the runtime client (`getClient`, dist/index.js line 168) and
creating a session (line 173) happen only inside `runBridge`, so
`bridgeCalls = 0` entails that no client is started and no session is created
for the request. -/
structure HandlerResult where
  isError : Bool
  text : String
  bridgeCalls : Nat
deriving Repr, DecidableEq

/-- The fixed validation-failure message (dist/index.js line 331). -/
def promptRequiredMsg : String := "Error: prompt is required and must be a string"

/-- The CallToolRequestSchema handler (dist/index.js lines 320-364),
abstracted over the outcome `runBridge` would produce: an unknown tool name is
rejected; then `if (!prompt || typeof prompt !== "string")` rejects a missing,
falsy, or non-string prompt before anything else runs; otherwise the bridge is
invoked once and its success or thrown failure is converted to the protocol
reply. -/
def handleCallTool (toolName : String) (promptArg : Option JSValue)
    (bridgeOutcome : Except String String) : HandlerResult :=
  if toolName ≠ "ask-copilot-with-gemini" then
    { isError := true, text := "Unknown tool: " ++ toolName, bridgeCalls := 0 }
  else
    match promptArg with
    | none => { isError := true, text := promptRequiredMsg, bridgeCalls := 0 }
    | some p =>
        if jsTruthy p = false ∨ jsIsString p = false then
          { isError := true, text := promptRequiredMsg, bridgeCalls := 0 }
        else
          match bridgeOutcome with
          | Except.ok result => { isError := false, text := result, bridgeCalls := 1 }
          | Except.error msg =>
              { isError := true, text := "Error: " ++ msg, bridgeCalls := 1 }

/-- A prompt argument is a valid prompt exactly when it is a non-empty
string. -/
def validPrompt : Option JSValue → Bool
  | some (JSValue.strVal s) => s != ""
  | _ => false

/-! ## Claim about handler validation -/

/-- Claim C9: for every inbound call of the bridge tool whose prompt is
missing, not a string, or the empty string, the handler returns the fixed
validation failure immediately and `runBridge` is never invoked - hence no
runtime client is started and no session is created - whatever outcome the
bridge would have produced. -/
theorem claim9_invalid_prompt_rejected_before_bridge (promptArg : Option JSValue)
    (bridgeOutcome : Except String String) (h : validPrompt promptArg = false) :
    handleCallTool "ask-copilot-with-gemini" promptArg bridgeOutcome =
      { isError := true, text := promptRequiredMsg, bridgeCalls := 0 } := by
  cases promptArg with
  | none => rfl
  | some p =>
      cases p with
      | strVal s =>
          have hs : s = "" := by
            simpa [validPrompt] using h
          subst hs
          rfl
      | numVal n =>
          simp [handleCallTool, jsTruthy, jsIsString]
      | boolVal b => cases b <;> rfl
      | nullVal => rfl

/-- Witness for claim C9 at the concrete empty-string prompt, with a bridge
that would have succeeded. -/
theorem claim9_invalid_prompt_rejected_before_bridge_witness :
    handleCallTool "ask-copilot-with-gemini" (some (JSValue.strVal ""))
        (Except.ok "never reached") =
      { isError := true, text := promptRequiredMsg, bridgeCalls := 0 } :=
  claim9_invalid_prompt_rejected_before_bridge (some (JSValue.strVal ""))
    (Except.ok "never reached") (by decide)

/-! ## Singleton client acquisition (dist/index.js, `getClient`,
lines 109-134)

Node.js runs the module single-threaded: each `getClient()` call executes
synchronously up to the point where it awaits, so the interleaving of N
concurrent callers is: each caller runs the synchronous prefix of `getClient`
in turn, then the single start attempt resolves, then every awaiting caller
observes that resolution. The model below follows that schedule. -/

/-- The module-level mutable state read and written by `getClient`:
`singletonClient` (line 109), `clientInitPromise` (line 110), and the number
of times the start routine (the async initializer, lines 117-126) has been
invoked. Attempts are numbered from 1 so a promise can be identified. -/
structure ClientState where
  singletonClient : Option Nat
  clientInitPromise : Option Nat
  startCount : Nat
deriving Repr, DecidableEq

/-- The state before any caller: both module variables undefined. -/
def initialClientState : ClientState :=
  { singletonClient := none, clientInitPromise := none, startCount := 0 }

/-- What a caller ends up awaiting: the already-cached client, or the in-flight
start attempt with the given number. -/
inductive AwaitTarget where
  | cached (c : Nat)
  | inflight (attempt : Nat)
deriving Repr, DecidableEq

/-- The synchronous prefix of one `getClient()` call (dist/index.js
lines 111-126): return the cached client if set; otherwise await the in-flight
attempt if one exists; otherwise create a new attempt, store its promise, and
await it. -/
def getClientCall (st : ClientState) : ClientState × AwaitTarget :=
  match st.singletonClient with
  | some c => (st, AwaitTarget.cached c)
  | none =>
      match st.clientInitPromise with
      | some a => (st, AwaitTarget.inflight a)
      | none =>
          let a := st.startCount + 1
          ({ singletonClient := none, clientInitPromise := some a, startCount := a },
            AwaitTarget.inflight a)

/-- The synchronous prefixes of n consecutive `getClient()` calls, returning
the state they leave behind and what each caller awaits. -/
def getClientCalls : Nat → ClientState → ClientState × List AwaitTarget
  | 0, st => (st, [])
  | n + 1, st =>
      let r1 := getClientCall st
      let r2 := getClientCalls n r1.1
      (r2.1, r1.2 :: r2.2)

/-- The tail of the async initializer on success (dist/index.js line 123):
`singletonClient = client`. -/
def resolveStart (st : ClientState) (client : Nat) : ClientState :=
  { st with singletonClient := some client }

/-- The catch block run by an awaiting caller on start failure (dist/index.js
line 131): `clientInitPromise = undefined`, allowing a later retry; the error
is rethrown. Every awaiting caller runs it, idempotently. -/
def failRecovery (st : ClientState) : ClientState :=
  { st with clientInitPromise := none }

/-- What one awaiting caller observes once the start attempt has resolved. -/
def awaitResult (outcome : Except String Nat) : AwaitTarget → Except String Nat
  | AwaitTarget.cached c => Except.ok c
  | AwaitTarget.inflight _ => outcome

/-- The full scenario of claim C5: n callers invoke `getClient` while the
client is uninitialized, then the single start attempt resolves with
`outcome`, and every caller observes the resolution. -/
def concurrentGetClient (n : Nat) (outcome : Except String Nat) :
    ClientState × List (Except String Nat) :=
  let r := getClientCalls n initialClientState
  match outcome with
  | Except.ok c => (resolveStart r.1 c, r.2.map (awaitResult (Except.ok c)))
  | Except.error e => (failRecovery r.1, r.2.map (awaitResult (Except.error e)))

/-- While a start attempt is in flight and no client is cached, further
`getClient` calls change nothing and all await the same attempt. -/
theorem getClientCalls_inflight (n a cnt : Nat) :
    getClientCalls n
        { singletonClient := none, clientInitPromise := some a, startCount := cnt } =
      ({ singletonClient := none, clientInitPromise := some a, startCount := cnt },
        List.replicate n (AwaitTarget.inflight a)) := by
  induction n with
  | zero => rfl
  | succ k ih => simp [getClientCalls, getClientCall, ih, List.replicate]

/-! ## Claim about client acquisition -/

/-- Claim C5: when n + 1 callers concurrently invoke `getClient` while the
client is uninitialized, the start routine runs exactly once, every caller
observes the same outcome of that single attempt; after a failure the
in-flight state is cleared and the next call starts a fresh attempt from
scratch, while after a success the client is cached and the next call returns
it without starting anything. -/
theorem claim5_single_flight_client_init (n : Nat) (outcome : Except String Nat) :
    (concurrentGetClient (n + 1) outcome).1.startCount = 1 ∧
    (concurrentGetClient (n + 1) outcome).2 = List.replicate (n + 1) outcome ∧
    (∀ e, outcome = Except.error e →
      (concurrentGetClient (n + 1) outcome).1.clientInitPromise = none ∧
      (getClientCall (concurrentGetClient (n + 1) outcome).1).1.startCount = 2 ∧
      (getClientCall (concurrentGetClient (n + 1) outcome).1).2 =
        AwaitTarget.inflight 2) ∧
    (∀ c, outcome = Except.ok c →
      (concurrentGetClient (n + 1) outcome).1.singletonClient = some c ∧
      (getClientCall (concurrentGetClient (n + 1) outcome).1).2 =
        AwaitTarget.cached c ∧
      (getClientCall (concurrentGetClient (n + 1) outcome).1).1.startCount = 1) := by
  have hfirst : getClientCall initialClientState =
      ({ singletonClient := none, clientInitPromise := some 1, startCount := 1 },
        AwaitTarget.inflight 1) := rfl
  have hcalls : getClientCalls (n + 1) initialClientState =
      ({ singletonClient := none, clientInitPromise := some 1, startCount := 1 },
        List.replicate (n + 1) (AwaitTarget.inflight 1)) := by
    simp [getClientCalls, hfirst, getClientCalls_inflight, List.replicate]
  cases outcome with
  | ok c =>
      refine ⟨?_, ?_, ?_, ?_⟩
      · simp [concurrentGetClient, hcalls, resolveStart]
      · simp [concurrentGetClient, hcalls, List.map_replicate, awaitResult]
      · intro e he
        exact absurd he (by simp)
      · intro c0 hc
        have hc0 : c0 = c := by
          simpa using hc.symm
        subst hc0
        refine ⟨?_, ?_, ?_⟩ <;>
          simp [concurrentGetClient, hcalls, resolveStart, getClientCall]
  | error e =>
      refine ⟨?_, ?_, ?_, ?_⟩
      · simp [concurrentGetClient, hcalls, failRecovery]
      · simp [concurrentGetClient, hcalls, List.map_replicate, awaitResult]
      · intro e0 he
        refine ⟨?_, ?_, ?_⟩ <;>
          simp [concurrentGetClient, hcalls, failRecovery, getClientCall]
      · intro c0 hc
        exact absurd hc (by simp)

/-- Witness for claim C5 at three concurrent callers, for both a successful
start (client 42) and a failing start. -/
theorem claim5_single_flight_client_init_witness :
    (concurrentGetClient 3 (Except.ok 42)).1.startCount = 1 ∧
    (concurrentGetClient 3 (Except.ok 42)).2 = List.replicate 3 (Except.ok 42) ∧
    (concurrentGetClient 3 (Except.ok 42)).1.singletonClient = some 42 ∧
    (concurrentGetClient 3 (Except.error "start failed")).1.clientInitPromise = none ∧
    (getClientCall (concurrentGetClient 3 (Except.error "start failed")).1).1.startCount = 2 := by
  have hok := claim5_single_flight_client_init 2 (Except.ok 42)
  have herr := claim5_single_flight_client_init 2 (Except.error "start failed")
  exact ⟨hok.1, hok.2.1, (hok.2.2.2 42 rfl).1,
    (herr.2.2.1 "start failed" rfl).1, (herr.2.2.1 "start failed" rfl).2.1⟩
